import Mathlib

/-!
PostPilot test-flow engine: a shallow embedding.

This file embeds the declarative browser-test engine of the PostPilot
repository in Lean 4 and proves properties of it.

* `executeStep` / `executeStepTry` embed `executeStep` from
  `src/testing/actions.ts`: the priority-ordered `if/else` dispatch over the
  optional fields of a step object, with the surrounding `try/catch`.
  The page-automation driver is modelled as an oracle `Driver` mapping each
  `DriverCall` (the call together with its arguments, notably the effective
  timeout) to either a returned string value or a thrown exception, and the
  executor additionally returns the list of driver calls it made, in order.
* `runTestFlow` embeds `runTestFlow` from `src/testing/runner.ts`.  External
  effects (flow loading, browser launch, page creation, the per-step
  executor, closing, persistence) are supplied by a `RunWorld` oracle.
  Wall-clock time is modelled by an explicit clock that starts at 0 when the
  function is entered and advances by the oracle-given cost of each external
  operation; a step's cost is its recorded `duration`.  `runTestFlow`
  returns the `TestResults` together with the final clock value.
* `BrowserModel` embeds the module-level browser cache of `src/browser.ts`.

JavaScript-specific semantics are made explicit: `jsOrStr` / `jsOrNat`
embed the `||` default-value idiom (where `''`, `0` and `undefined` are all
falsy), and `jsIncludes` embeds `String.prototype.includes`.
-/

/-- JS `a || b` on strings where `a` may be `undefined`: the empty string is
falsy, so it falls through to `b`. -/
def jsOrStr (a : Option String) (b : String) : String :=
  match a with
  | some s => if s = "" then b else s
  | none => b

/-- JS `a || b` on numbers where `a` may be `undefined`: `0` is falsy, so it
falls through to `b`.  This is the semantics of `step.timeout || 30000`. -/
def jsOrNat (a : Option Nat) (b : Nat) : Nat :=
  match a with
  | some n => if n = 0 then b else n
  | none => b

/-- JS `hay.includes(needle)`: `needle` occurs contiguously in
`hay`; the empty needle is contained in everything. -/
def jsIncludes (hay needle : String) : Bool :=
  decide (needle.data <:+: hay.data)

/-- JS `s.startsWith(p)`, at the character level. -/
def jsStartsWith (s p : String) : Bool :=
  p.data.isPrefixOf s.data

/-- JS `s.slice(n)`: drop the first `n` characters. -/
def jsDrop (s : String) (n : Nat) : String :=
  String.mk (s.data.drop n)

/-- JS `s.slice(0, n)`: the first `n` characters. -/
def jsTake (s : String) (n : Nat) : String :=
  String.mk (s.data.take n)

/-- JS `s.toLowerCase()`, at the character level. -/
def jsToLower (s : String) : String :=
  String.mk (s.data.map Char.toLower)

/-- The step object of `src/testing/actions.ts` (`TestStep`): a bag of
optional fields, of which the action tags are examined in a fixed priority
order. -/
structure TestStep where
  goto : Option String := none
  click : Option String := none
  type : Option String := none
  text : Option String := none
  waitFor : Option String := none
  timeout : Option Nat := none
  screenshot : Option String := none
  verify : Option String := none
  contains : Option String := none
  wait : Option Nat := none
  scroll : Option String := none
  hover : Option String := none
  select : Option String := none
  value : Option String := none
  press : Option String := none
  evaluate : Option String := none
deriving Repr, DecidableEq

/-- The outcome record of one step (`StepResult` in the source).  Wall-clock
duration is not observable inside the step model, so the executor leaves it
at 0; at the runner level durations are supplied by the clock oracle. -/
structure StepResult where
  step : TestStep
  success : Bool
  duration : Nat
  error : Option String := none
  screenshotPath : Option String := none
deriving Repr, DecidableEq

/-- The function `resolveSelector` from `src/testing/actions.ts`: `text=` selectors become
an XPath text-containment query, `xpath=` and CSS selectors pass through. -/
def resolveSelector (selector : String) : String :=
  if jsStartsWith selector ("text=") then
    "xpath=//*[contains(text(),\"" ++ jsDrop selector 5 ++ "\")]"
  else if jsStartsWith selector ("xpath=") then
    selector
  else
    selector

/-- One call to the page-automation driver, with the arguments the engine
passes, in particular the effective timeout where the source passes one. -/
inductive DriverCall where
  | goto (url : String) (timeout : Nat)
  | waitForSelector (selector : String) (visible : Bool) (timeout : Nat)
  | click (selector : String)
  | clearValue (selector : String)
  | humanType (selector : String) (text : String)
  | screenshot (label : String) (dir : String)
  | getText (selector : String)
  | sleep (ms : Nat)
  | scrollTo (selector : String)
  | hover (selector : String)
  | selectValue (selector : String) (value : String)
  | press (key : String)
  | runScript (src : String)
deriving Repr, DecidableEq

/-- The page-automation driver as an oracle: each call either returns a
string value (the text read, the screenshot path; `""` for value-less calls)
or throws, modelled as `Except.error` carrying the stringified exception. -/
structure Driver where
  run : DriverCall → Except String String

/-- Rendering of one optional string field for the `JSON.stringify(step)`
error text (quoting and braces of real JSON are abstracted away). -/
def showOptField (label : String) (v : Option String) : String :=
  match v with
  | some s => label ++ ":\"" ++ s ++ "\";"
  | none => ""

/-- Rendering of one optional numeric field for the stringified step. -/
def showNatField (label : String) (v : Option Nat) : String :=
  match v with
  | some n => label ++ ":" ++ toString n ++ ";"
  | none => ""

/-- Model of `JSON.stringify(step)`: lists the present fields in order. -/
def stringifyStep (step : TestStep) : String :=
  showOptField ("goto") step.goto ++ showOptField ("click") step.click ++
  showOptField ("type") step.type ++ showOptField ("text") step.text ++
  showOptField ("waitFor") step.waitFor ++ showNatField ("timeout") step.timeout ++
  showOptField ("screenshot") step.screenshot ++ showOptField ("verify") step.verify ++
  showOptField ("contains") step.contains ++ showNatField ("wait") step.wait ++
  showOptField ("scroll") step.scroll ++ showOptField ("hover") step.hover ++
  showOptField ("select") step.select ++ showOptField ("value") step.value ++
  showOptField ("press") step.press ++ showOptField ("evaluate") step.evaluate

/-- A failed outcome as built inside the `try` block (no exception). -/
def mkFail (step : TestStep) (e : String) : StepResult :=
  { step := step, success := false, duration := 0, error := some e }

/-- A successful outcome. -/
def mkOk (step : TestStep) : StepResult :=
  { step := step, success := true, duration := 0 }

/-- The body of the `try` block of `executeStep`: the priority-ordered
dispatch.  Returns the driver calls made, and either the outcome the block
assembled (`Except.ok`, which covers the verify-mismatch and unknown-step
failures, set without throwing) or the exception a driver call threw
(`Except.error`). -/
def executeStepTry (d : Driver) (step : TestStep) (baseUrl screenshotDir : String) :
    List DriverCall × Except String StepResult :=
  match step.goto with
  | some target =>
    let url := if jsStartsWith target ("http") then target else baseUrl ++ target
    let c := DriverCall.goto url (jsOrNat step.timeout 30000)
    match d.run c with
    | Except.error e => ([c], Except.error e)
    | Except.ok _ => ([c], Except.ok (mkOk step))
  | none =>
  match step.click with
  | some clickSel =>
    let sel := resolveSelector clickSel
    let c1 := DriverCall.waitForSelector sel true (jsOrNat step.timeout 10000)
    match d.run c1 with
    | Except.error e => ([c1], Except.error e)
    | Except.ok _ =>
      let c2 := DriverCall.click sel
      match d.run c2 with
      | Except.error e => ([c1, c2], Except.error e)
      | Except.ok _ => ([c1, c2], Except.ok (mkOk step))
  | none =>
  match step.type, step.text with
  | some typeSel, some txt =>
    let sel := resolveSelector typeSel
    let c1 := DriverCall.waitForSelector sel true (jsOrNat step.timeout 10000)
    match d.run c1 with
    | Except.error e => ([c1], Except.error e)
    | Except.ok _ =>
      let c2 := DriverCall.click sel
      match d.run c2 with
      | Except.error e => ([c1, c2], Except.error e)
      | Except.ok _ =>
        let c3 := DriverCall.clearValue sel
        match d.run c3 with
        | Except.error e => ([c1, c2, c3], Except.error e)
        | Except.ok _ =>
          let c4 := DriverCall.humanType sel txt
          match d.run c4 with
          | Except.error e => ([c1, c2, c3, c4], Except.error e)
          | Except.ok _ => ([c1, c2, c3, c4], Except.ok (mkOk step))
  | _, _ =>
  match step.waitFor with
  | some waitSel =>
    let sel := resolveSelector waitSel
    let c := DriverCall.waitForSelector sel true (jsOrNat step.timeout 30000)
    match d.run c with
    | Except.error e => ([c], Except.error e)
    | Except.ok _ => ([c], Except.ok (mkOk step))
  | none =>
  match step.screenshot with
  | some label =>
    let c := DriverCall.screenshot label screenshotDir
    match d.run c with
    | Except.error e => ([c], Except.error e)
    | Except.ok path =>
      ([c], Except.ok { step := step, success := true, duration := 0,
                        screenshotPath := some path })
  | none =>
  match step.verify, step.contains with
  | some verifySel, some expected =>
    let sel := resolveSelector verifySel
    let c1 := DriverCall.waitForSelector sel false (jsOrNat step.timeout 10000)
    match d.run c1 with
    | Except.error e => ([c1], Except.error e)
    | Except.ok _ =>
      let c2 := DriverCall.getText sel
      match d.run c2 with
      | Except.error e => ([c1, c2], Except.error e)
      | Except.ok text =>
        if jsIncludes (jsToLower text) (jsToLower expected) then
          ([c1, c2], Except.ok (mkOk step))
        else
          ([c1, c2], Except.ok (mkFail step
            ("Expected \"" ++ expected ++ "\" but found \"" ++ jsTake text 100 ++ "\"")))
  | _, _ =>
  match step.wait with
  | some ms =>
    let c := DriverCall.sleep ms
    match d.run c with
    | Except.error e => ([c], Except.error e)
    | Except.ok _ => ([c], Except.ok (mkOk step))
  | none =>
  match step.scroll with
  | some scrollSel =>
    let c := DriverCall.scrollTo (resolveSelector scrollSel)
    match d.run c with
    | Except.error e => ([c], Except.error e)
    | Except.ok _ => ([c], Except.ok (mkOk step))
  | none =>
  match step.hover with
  | some hoverSel =>
    let sel := resolveSelector hoverSel
    let c1 := DriverCall.waitForSelector sel true (jsOrNat step.timeout 10000)
    match d.run c1 with
    | Except.error e => ([c1], Except.error e)
    | Except.ok _ =>
      let c2 := DriverCall.hover sel
      match d.run c2 with
      | Except.error e => ([c1, c2], Except.error e)
      | Except.ok _ => ([c1, c2], Except.ok (mkOk step))
  | none =>
  match step.select, step.value with
  | some selectSel, some v =>
    let sel := resolveSelector selectSel
    let c1 := DriverCall.waitForSelector sel false (jsOrNat step.timeout 10000)
    match d.run c1 with
    | Except.error e => ([c1], Except.error e)
    | Except.ok _ =>
      let c2 := DriverCall.selectValue sel v
      match d.run c2 with
      | Except.error e => ([c1, c2], Except.error e)
      | Except.ok _ => ([c1, c2], Except.ok (mkOk step))
  | _, _ =>
  match step.press with
  | some key =>
    let c := DriverCall.press key
    match d.run c with
    | Except.error e => ([c], Except.error e)
    | Except.ok _ => ([c], Except.ok (mkOk step))
  | none =>
  match step.evaluate with
  | some src =>
    let c := DriverCall.runScript src
    match d.run c with
    | Except.error e => ([c], Except.error e)
    | Except.ok _ => ([c], Except.ok (mkOk step))
  | none =>
    ([], Except.ok (mkFail step ("Unknown step type: " ++ stringifyStep step)))

/-- The function `executeStep` from `src/testing/actions.ts`: the `try` body wrapped in
the `catch` that converts a thrown exception into a failed outcome carrying
the stringified exception.  Total by construction — it never throws. -/
def executeStep (d : Driver) (step : TestStep) (baseUrl screenshotDir : String) :
    List DriverCall × StepResult :=
  let t := executeStepTry d step baseUrl screenshotDir
  match t.2 with
  | Except.ok r => (t.1, r)
  | Except.error e =>
    (t.1, { step := step, success := false, duration := 0, error := some e })

/-- A driver whose every call succeeds (returning the empty string). -/
def dOK : Driver := { run := fun _ => Except.ok "" }

/-- A driver whose every call throws. -/
def dBoom : Driver := { run := fun _ => Except.error "boom" }






/-! The Flow Runner (`src/testing/runner.ts`). -/

/-- The flow definition (`TestFlow` in the source). -/
structure TestFlow where
  name : String
  baseUrl : Option String := none
  steps : List TestStep
deriving Repr, DecidableEq

/-- The options object of `runTestFlow` (`RunTestOptions` in the source),
with the source's destructuring defaults. -/
structure RunTestOptions where
  flowPath : Option String := none
  flow : Option TestFlow := none
  baseUrl : Option String := none
  screenshotDir : String := "./screenshots"
  headless : Bool := true
  stopOnFailure : Bool := false
  jsonOutput : Bool := false
deriving Repr

/-- The aggregated run report (`TestResults` in the source). -/
structure TestResults where
  name : String
  baseUrl : String
  steps : List StepResult
  passed : Nat
  failed : Nat
  total : Nat
  duration : Nat
  screenshotDir : String
deriving Repr, DecidableEq

/-- The collaborators `runTestFlow` talks to, as oracles: flow loading,
browser/page acquisition and release, step execution, and the persistence
call.  `Except.error e` models a thrown exception.  The `...Time` fields
give the wall-clock cost of each external operation for the explicit clock;
a step's cost is the `duration` recorded in its own `StepResult`. -/
structure RunWorld where
  loadTestFlow : String → Except String TestFlow
  launchBrowser : Except String Unit
  launchTime : Nat
  newPage : Except String Unit
  newPageTime : Nat
  exec : Nat → TestStep → StepResult
  closePageTime : Nat
  closeBrowserTime : Nat
  recordTestRun : Except String Unit

/-- The step loop of `runTestFlow` (source lines 74–95): execute each step in
order, append its result, count it as passed or failed, and break out of the
loop after a failed step when `stopOnFailure` is set.  `i` is the loop
index; returns `(stepResults, passed, failed)`. -/
def runStepsLoop (exec : Nat → TestStep → StepResult) (stopOnFailure : Bool) :
    List TestStep → Nat → List StepResult × Nat × Nat
  | [], _ => ([], 0, 0)
  | s :: rest, i =>
    let r := exec i s
    let p0 : Nat := if r.success then 1 else 0
    let f0 : Nat := if r.success then 0 else 1
    if !r.success && stopOnFailure then
      ([r], p0, f0)
    else
      let restRun := runStepsLoop exec stopOnFailure rest (i + 1)
      (r :: restRun.1, p0 + restRun.2.1, f0 + restRun.2.2)

/-- Flow resolution at the top of `runTestFlow`: a provided flow object wins,
else the flow is loaded from `flowPath`, else the call throws. -/
def loadFlow (w : RunWorld) (o : RunTestOptions) : Except String TestFlow :=
  match o.flow with
  | some f => Except.ok f
  | none =>
    match o.flowPath with
    | some p => w.loadTestFlow p
    | none => Except.error ("Either flowPath or flow must be provided")

/-- The function `runTestFlow` from `src/testing/runner.ts`.  The explicit clock starts at
0 on entry; `launchBrowser` and `newPage` consume their oracle-given times,
`startTime = Date.now()` is read only after both (source line 68), each
executed step consumes its recorded duration, and `page.close()` /
`browser.close()` consume their times before `duration` is computed (source
lines 96–101).  `recordTestRun` runs after the results object is built; if
it throws, the exception escapes (there is no try/catch around it, source
lines 114–123).  Returns the results together with the final clock value,
i.e. the wall-clock time elapsed since the call began. -/
def runTestFlow (w : RunWorld) (o : RunTestOptions) : Except String (TestResults × Nat) :=
  match loadFlow w o with
  | Except.error e => Except.error e
  | Except.ok flow =>
    let baseUrl := jsOrStr o.baseUrl (jsOrStr flow.baseUrl "")
    match w.launchBrowser with
    | Except.error e => Except.error e
    | Except.ok _ =>
      match w.newPage with
      | Except.error e => Except.error e
      | Except.ok _ =>
        let startTime := w.launchTime + w.newPageTime
        let stepRun := runStepsLoop w.exec o.stopOnFailure flow.steps 0
        let endTime :=
          startTime + (stepRun.1.map (fun r => r.duration)).sum +
            w.closePageTime + w.closeBrowserTime
        let duration := endTime - startTime
        let results : TestResults :=
          { name := flow.name
            baseUrl := baseUrl
            steps := stepRun.1
            passed := stepRun.2.1
            failed := stepRun.2.2
            total := flow.steps.length
            duration := duration
            screenshotDir := o.screenshotDir }
        match w.recordTestRun with
        | Except.error e => Except.error e
        | Except.ok _ => Except.ok (results, endTime)

/-! The module-level browser cache (`src/browser.ts`). -/

namespace BrowserModel

/-- The state of the `browser.ts` module together with the browser heap:
`browserInstance` is the module-level cache (`null` or a browser handle,
identified by an id), `nextId` feeds fresh ids to `puppeteer.launch`, and
`closed` collects the ids of browsers whose `close()` has been called. -/
structure BrowserWorld where
  browserInstance : Option Nat
  nextId : Nat
  closed : List Nat
deriving Repr, DecidableEq

/-- The function `launchBrowser` from `src/browser.ts`: return the cached instance if one
is set, otherwise launch a fresh browser and cache it. -/
def launchBrowser (st : BrowserWorld) : BrowserWorld × Nat :=
  match st.browserInstance with
  | some b => (st, b)
  | none =>
    let b := st.nextId
    ({ browserInstance := some b, nextId := st.nextId + 1, closed := st.closed }, b)

/-- Direct `browser.close()` on a handle: marks the browser closed
and leaves the module cache untouched. -/
def browserClose (st : BrowserWorld) (b : Nat) : BrowserWorld :=
  { st with closed := b :: st.closed }

/-- The function `closeBrowser` from `src/browser.ts`: the only function that resets the
cache to `null`, after closing the cached instance. -/
def closeBrowser (st : BrowserWorld) : BrowserWorld :=
  match st.browserInstance with
  | some b => { browserInstance := none, nextId := st.nextId, closed := b :: st.closed }
  | none => st

/-- The browser lifecycle performed by `runTestFlow` (`src/testing/runner.ts`
lines 65 and 98): `launchBrowser`, then at the end `browser.close()` on the
obtained handle — not `closeBrowser()`.  Returns the state after the run and
the handle used. -/
def runnerBrowserLifecycle (st : BrowserWorld) : BrowserWorld × Nat :=
  let lb := launchBrowser st
  (browserClose lb.1 lb.2, lb.2)

end BrowserModel

/-! Sample collaborators for concrete evaluations. -/

/-- The default executor for concrete runs: each step is executed by
`executeStep` against the all-succeeding driver. -/
def execOK : Nat → TestStep → StepResult :=
  fun _ s => (executeStep dOK s "" "scr").2

/-- A well-behaved world: every collaborator succeeds instantly. -/
def wBase : RunWorld :=
  { loadTestFlow := fun _ => Except.error "ENOENT"
    launchBrowser := Except.ok ()
    launchTime := 0
    newPage := Except.ok ()
    newPageTime := 0
    exec := execOK
    closePageTime := 0
    closeBrowserTime := 0
    recordTestRun := Except.ok () }

/-- A driver whose text reads return `"Welcome, Jane"`. -/
def dText : Driver :=
  { run := fun c =>
      match c with
      | DriverCall.getText _ => Except.ok "Welcome, Jane"
      | _ => Except.ok "" }

/-- A step that sleeps 1 ms: always succeeds under `execOK`. -/
def stepWait1 : TestStep := { wait := some 1 }

/-- A `type` step missing its `text` companion: fails under `execOK`. -/
def stepTypeNoText : TestStep := { type := some "#x" }

/-- A navigation step: succeeds under `execOK`. -/
def stepGotoA : TestStep := { goto := some "/a" }

/-- A three-step flow whose second step fails under `execOK`. -/
def flowStop : TestFlow :=
  { name := "stop-flow", steps := [stepWait1, stepTypeNoText, stepGotoA] }

/-- A flow with no steps and no `baseUrl` of its own. -/
def flowEmpty : TestFlow := { name := "f", steps := [] }

/-- An empty flow that carries its own `baseUrl`. -/
def flowWithBase : TestFlow :=
  { name := "f", baseUrl := some "https://flow.example", steps := [] }

/-- A world whose persistence collaborator throws. -/
def wDbDown : RunWorld := { wBase with recordTestRun := Except.error "db down" }

/-! Theorems about the step loop. -/

/-- The pass and fail counters always add up to the number of recorded
outcomes. -/
theorem runStepsLoop_counts (exec : Nat → TestStep → StepResult) (sof : Bool) :
    ∀ (l : List TestStep) (i : Nat),
      (runStepsLoop exec sof l i).2.1 + (runStepsLoop exec sof l i).2.2 =
        (runStepsLoop exec sof l i).1.length
  | [], _ => rfl
  | s :: rest, i => by
    have ih := runStepsLoop_counts exec sof rest (i + 1)
    simp only [runStepsLoop]
    split
    · rename_i h
      have hs : (exec i s).success = false := by
        cases hsucc : (exec i s).success
        · rfl
        · simp [hsucc] at h
      simp [hs]
    · cases hsucc : (exec i s).success <;> simp [hsucc] <;> omega

/-- With stop-on-failure disabled, the loop records one outcome per step. -/
theorem runStepsLoop_length_noStop (exec : Nat → TestStep → StepResult) :
    ∀ (l : List TestStep) (i : Nat),
      (runStepsLoop exec false l i).1.length = l.length
  | [], _ => rfl
  | s :: rest, i => by
    have ih := runStepsLoop_length_noStop exec rest (i + 1)
    simp [runStepsLoop, ih]

/-- With stop-on-failure enabled and the first failing step at (0-based)
position `k`, the loop records exactly the outcomes of steps `0..k`, each
being the executor's outcome for that step. -/
theorem runStepsLoop_firstFail (exec : Nat → TestStep → StepResult) :
    ∀ (l : List TestStep) (i k : Nat), k < l.length →
      (∀ j s, j < k → l[j]? = some s → (exec (i + j) s).success = true) →
      (∀ s, l[k]? = some s → (exec (i + k) s).success = false) →
      (runStepsLoop exec true l i).1.length = k + 1 ∧
      (∀ j, j ≤ k →
        (runStepsLoop exec true l i).1[j]? = (l[j]?).map (fun s => exec (i + j) s))
  | [], _, k, hk, _, _ => absurd hk (by simp)
  | s :: rest, i, 0, _, _, hfail => by
    have hs : (exec i s).success = false := by
      have h := hfail s (by simp)
      simpa using h
    refine ⟨by simp [runStepsLoop, hs], ?_⟩
    intro j hj
    have hj0 : j = 0 := Nat.le_zero.mp hj
    subst hj0
    simp [runStepsLoop, hs]
  | s :: rest, i, k + 1, hk, hpre, hfail => by
    have hs : (exec i s).success = true := by
      have h := hpre 0 s (Nat.succ_pos k) (by simp)
      simpa using h
    have hk' : k < rest.length := by simpa using hk
    have hpre' : ∀ j s2, j < k → rest[j]? = some s2 → (exec (i + 1 + j) s2).success = true := by
      intro j s2 hj hjs
      have h := hpre (j + 1) s2 (by omega) (by simpa using hjs)
      have harith : i + (j + 1) = i + 1 + j := by omega
      rw [harith] at h
      exact h
    have hfail' : ∀ s2, rest[k]? = some s2 → (exec (i + 1 + k) s2).success = false := by
      intro s2 hks
      have h := hfail s2 (by simpa using hks)
      have harith : i + (k + 1) = i + 1 + k := by omega
      rw [harith] at h
      exact h
    have ih := runStepsLoop_firstFail exec rest (i + 1) k hk' hpre' hfail'
    refine ⟨by simp [runStepsLoop, hs, ih.1], ?_⟩
    intro j hj
    cases j with
    | zero => simp [runStepsLoop, hs]
    | succ j' =>
      have h2 := ih.2 j' (by omega)
      have harith : i + 1 + j' = i + (j' + 1) := by omega
      rw [harith] at h2
      simp only [runStepsLoop, hs]
      simpa using h2


/-! Claim theorems. -/

/-- **C1**: for every flow run with stop-on-failure enabled whose first
failing step is at 0-based index `k` (step `k+1` of `N` in 1-based terms),
the returned result contains outcomes exactly for steps `0..k` — each the
executor's outcome for that step, none for the later steps — its `total`
equals the flow's full step count `N`, `passed + failed` equals `k + 1`,
and `passed + failed` is strictly below `N` whenever `k + 1 < N`. -/
theorem runTestFlow_stopOnFailure_firstFail
    (w : RunWorld) (o : RunTestOptions) (flow : TestFlow) (k : Nat)
    (hflow : o.flow = some flow) (hstop : o.stopOnFailure = true)
    (hlaunch : w.launchBrowser = Except.ok ())
    (hpage : w.newPage = Except.ok ())
    (hrec : w.recordTestRun = Except.ok ())
    (hk : k < flow.steps.length)
    (hpre : ∀ j s, j < k → flow.steps[j]? = some s → (w.exec j s).success = true)
    (hfail : ∀ s, flow.steps[k]? = some s → (w.exec k s).success = false) :
    ∃ r t, runTestFlow w o = Except.ok (r, t) ∧
      r.steps.length = k + 1 ∧
      (∀ j, j ≤ k → r.steps[j]? = (flow.steps[j]?).map (fun s => w.exec j s)) ∧
      r.total = flow.steps.length ∧
      r.passed + r.failed = k + 1 ∧
      (k + 1 < flow.steps.length → r.passed + r.failed < r.total) := by
  have hff := runStepsLoop_firstFail w.exec flow.steps 0 k hk
    (by intro j s hj hjs; have h := hpre j s hj hjs; simpa using h)
    (by intro s hks; have h := hfail s hks; simpa using h)
  have hcnt := runStepsLoop_counts w.exec true flow.steps 0
  simp only [runTestFlow, loadFlow, hflow, hlaunch, hpage, hrec, hstop]
  refine ⟨_, _, rfl, hff.1, ?_, rfl, ?_, ?_⟩
  · intro j hj
    have h2 := hff.2 j hj
    simpa using h2
  · rw [hcnt, hff.1]
  · intro hlt
    have h3 : (runStepsLoop w.exec true flow.steps 0).2.1 +
        (runStepsLoop w.exec true flow.steps 0).2.2 = k + 1 := by
      rw [hcnt, hff.1]
    simp only [h3]
    exact hlt

/-- Witness for C1: a three-step flow whose second step fails, run with
stop-on-failure: two outcomes are recorded, `total` stays 3, and
`passed + failed = 2 < 3`. -/
theorem runTestFlow_stopOnFailure_firstFail_witness :
    ∃ r t,
      runTestFlow { wBase with exec := execOK }
          { flow := some flowStop, stopOnFailure := true } = Except.ok (r, t) ∧
      r.steps.length = 2 ∧
      (∀ j, j ≤ 1 → r.steps[j]? = (flowStop.steps[j]?).map (fun s => execOK j s)) ∧
      r.total = 3 ∧
      r.passed + r.failed = 2 ∧
      (2 < 3 → r.passed + r.failed < r.total) := by
  have h := runTestFlow_stopOnFailure_firstFail
    { wBase with exec := execOK }
    { flow := some flowStop, stopOnFailure := true }
    flowStop 1 rfl rfl rfl rfl rfl
    (by decide)
    (by
      intro j s hj hjs
      have hj0 : j = 0 := by omega
      subst hj0
      simp only [flowStop, stepWait1, stepTypeNoText, stepGotoA] at hjs
      simp only [List.getElem?_cons_zero, Option.some.injEq] at hjs
      subst hjs
      decide)
    (by
      intro s hks
      simp only [flowStop, stepWait1, stepTypeNoText, stepGotoA] at hks
      simp only [List.getElem?_cons_succ, List.getElem?_cons_zero, Option.some.injEq] at hks
      subst hks
      decide)
  simpa [flowStop, stepWait1, stepTypeNoText, stepGotoA] using h

/-- **C8**: for every flow with `N` steps run with stop-on-failure disabled,
the result's `total` is `N` and its outcome sequence has length exactly `N`,
no matter how many steps fail. -/
theorem runTestFlow_noStop_total
    (w : RunWorld) (o : RunTestOptions) (flow : TestFlow)
    (hflow : o.flow = some flow) (hstop : o.stopOnFailure = false)
    (hlaunch : w.launchBrowser = Except.ok ())
    (hpage : w.newPage = Except.ok ())
    (hrec : w.recordTestRun = Except.ok ()) :
    ∃ r t, runTestFlow w o = Except.ok (r, t) ∧
      r.total = flow.steps.length ∧
      r.steps.length = flow.steps.length := by
  simp only [runTestFlow, loadFlow, hflow, hlaunch, hpage, hrec, hstop]
  exact ⟨_, _, rfl, rfl, runStepsLoop_length_noStop w.exec flow.steps 0⟩

/-- Witness for C8: the same three-step flow (second step failing) run
without stop-on-failure records all 3 outcomes and `total = 3`. -/
theorem runTestFlow_noStop_total_witness :
    ∃ r t,
      runTestFlow { wBase with exec := execOK } { flow := some flowStop } =
        Except.ok (r, t) ∧
      r.total = 3 ∧ r.steps.length = 3 := by
  have h := runTestFlow_noStop_total
    { wBase with exec := execOK } { flow := some flowStop } flowStop
    rfl rfl rfl rfl rfl
  simpa using h

/-- **C5** (counterexample): the claim says `durationMs` starts before driver
acquisition.  In a world where browser launch takes 7 ms and everything else
is instant, the wall clock at return is 7 but the reported `duration` is 0:
`startTime` is read only after launch and page creation, so acquisition time
is not included. -/
theorem runTestFlow_duration_counterexample :
    runTestFlow { wBase with launchTime := 7 } { flow := some flowEmpty } =
      Except.ok ({ name := "f", baseUrl := "", steps := [], passed := 0, failed := 0,
                   total := 0, duration := 0, screenshotDir := "./screenshots" }, 7) ∧
    (0 : Nat) ≠ 7 :=
  ⟨rfl, by decide⟩

/-- **C5** (amended): `durationMs` is measured from after driver-session
acquisition (browser launch and page creation) to after driver-session
release, so it includes the executed steps and the release time but not the
acquisition time: the wall clock at return exceeds it by exactly the launch
and page-creation times. -/
theorem runTestFlow_duration_measurement
    (w : RunWorld) (o : RunTestOptions) (flow : TestFlow)
    (hflow : o.flow = some flow)
    (hlaunch : w.launchBrowser = Except.ok ())
    (hpage : w.newPage = Except.ok ())
    (hrec : w.recordTestRun = Except.ok ()) :
    ∃ r t, runTestFlow w o = Except.ok (r, t) ∧
      r.duration = (r.steps.map (fun s => s.duration)).sum +
        w.closePageTime + w.closeBrowserTime ∧
      t = w.launchTime + w.newPageTime + r.duration := by
  simp only [runTestFlow, loadFlow, hflow, hlaunch, hpage, hrec]
  refine ⟨_, _, rfl, ?_, ?_⟩ <;> dsimp only <;> omega

/-- Witness for the amended C5: with launch taking 7 ms and browser close
2 ms on an empty flow, the reported duration is the release time alone and
the total elapsed time is 7 ms more. -/
theorem runTestFlow_duration_measurement_witness :
    ∃ r t,
      runTestFlow { wBase with launchTime := 7, closeBrowserTime := 2 }
          { flow := some flowEmpty } = Except.ok (r, t) ∧
      r.duration = (r.steps.map (fun s => s.duration)).sum + 0 + 2 ∧
      t = 7 + 0 + r.duration := by
  have h := runTestFlow_duration_measurement
    { wBase with launchTime := 7, closeBrowserTime := 2 }
    { flow := some flowEmpty } flowEmpty rfl rfl rfl rfl
  simpa [wBase] using h

/-- **C6** (counterexample): the claim says a persistence failure never
blocks delivery of the computed result, and that only flow-load and
driver-acquisition failures escape as exceptions.  But `recordTestRun` is
not wrapped: when it throws, `runTestFlow` propagates the exception and no
result is delivered, although the identical world with a succeeding
persistence call delivers one. -/
theorem runTestFlow_persistence_blocks_counterexample :
    runTestFlow { wBase with recordTestRun := Except.error "db write failed" }
        { flow := some flowEmpty } = Except.error "db write failed" ∧
    runTestFlow wBase { flow := some flowEmpty } =
      Except.ok ({ name := "f", baseUrl := "", steps := [], passed := 0, failed := 0,
                   total := 0, duration := 0, screenshotDir := "./screenshots" }, 0) :=
  ⟨rfl, rfl⟩

/-- **C6** (amended): a persistence failure never alters the already-computed
result — the result delivered when the record-run call succeeds is computed
independently of that call — but it does escape `runTestFlow` as an
exception and blocks delivery.  Once the step loop has started, step
failures never escape (a result always exists when persistence succeeds);
the failures escaping after loading and acquisition are exactly the
persistence ones. -/
theorem runTestFlow_persistence
    (w : RunWorld) (o : RunTestOptions) (flow : TestFlow)
    (hflow : o.flow = some flow)
    (hlaunch : w.launchBrowser = Except.ok ())
    (hpage : w.newPage = Except.ok ()) :
    ∃ r t,
      runTestFlow { w with recordTestRun := Except.ok () } o = Except.ok (r, t) ∧
      (w.recordTestRun = Except.ok () → runTestFlow w o = Except.ok (r, t)) ∧
      (∀ e, w.recordTestRun = Except.error e → runTestFlow w o = Except.error e) := by
  simp only [runTestFlow, loadFlow, hflow, hlaunch, hpage]
  refine ⟨_, _, rfl, ?_, ?_⟩
  · intro h
    rw [h]
  · intro e h
    rw [h]

/-- Witness for the amended C6: with a throwing persistence collaborator the
run escapes with its error, while the persistence-succeeding variant of the
same world delivers a result. -/
theorem runTestFlow_persistence_witness :
    ∃ r t,
      runTestFlow { wDbDown with recordTestRun := Except.ok () }
          { flow := some flowEmpty } = Except.ok (r, t) ∧
      runTestFlow wDbDown { flow := some flowEmpty } = Except.error "db down" := by
  obtain ⟨r, t, h1, _, h3⟩ :=
    runTestFlow_persistence wDbDown { flow := some flowEmpty } flowEmpty rfl rfl rfl
  exact ⟨r, t, h1, h3 "db down" rfl⟩

/-- **C9** (counterexample): the claim says an explicit override wins for any
present value, the empty string included.  But the source resolves with
`overrideBaseUrl || flow.baseUrl || ''`, where the empty string is falsy: an
empty-string override is ignored and the flow's own `baseUrl` wins. -/
theorem runTestFlow_baseUrl_override_empty_counterexample :
    runTestFlow wBase { flow := some flowWithBase, baseUrl := some "" } =
      Except.ok ({ name := "f", baseUrl := "https://flow.example", steps := [],
                   passed := 0, failed := 0, total := 0, duration := 0,
                   screenshotDir := "./screenshots" }, 0) ∧
    ("https://flow.example" : String) ≠ "" :=
  ⟨rfl, by decide⟩

/-- **C9** (amended): the effective base URL is the explicit override when it
is present and non-empty; otherwise the flow's own `baseUrl` when present
and non-empty; otherwise the empty string. -/
theorem runTestFlow_baseUrl_precedence
    (w : RunWorld) (o : RunTestOptions) (flow : TestFlow)
    (hflow : o.flow = some flow)
    (hlaunch : w.launchBrowser = Except.ok ())
    (hpage : w.newPage = Except.ok ())
    (hrec : w.recordTestRun = Except.ok ()) :
    ∃ r t, runTestFlow w o = Except.ok (r, t) ∧
      (∀ s, o.baseUrl = some s → s ≠ "" → r.baseUrl = s) ∧
      ((o.baseUrl = none ∨ o.baseUrl = some "") →
        (∀ s, flow.baseUrl = some s → s ≠ "" → r.baseUrl = s) ∧
        ((flow.baseUrl = none ∨ flow.baseUrl = some "") → r.baseUrl = "")) := by
  simp only [runTestFlow, loadFlow, hflow, hlaunch, hpage, hrec]
  refine ⟨_, _, rfl, ?_, ?_⟩
  · intro s hs hne
    dsimp only
    simp [jsOrStr, hs, hne]
  · intro hov
    constructor
    · intro s hs hne
      dsimp only
      rcases hov with h | h <;> simp [jsOrStr, h, hs, hne]
    · intro hfb
      dsimp only
      rcases hov with h | h <;> rcases hfb with h2 | h2 <;> simp [jsOrStr, h, h2]

/-- Witness for the amended C9: no override and a non-empty flow `baseUrl`
make the flow's own value effective. -/
theorem runTestFlow_baseUrl_precedence_witness :
    ∃ r t,
      runTestFlow wBase { flow := some flowWithBase } = Except.ok (r, t) ∧
      r.baseUrl = "https://flow.example" := by
  obtain ⟨r, t, hrun, _, hfb⟩ :=
    runTestFlow_baseUrl_precedence wBase { flow := some flowWithBase } flowWithBase
      rfl rfl rfl rfl
  exact ⟨r, t, hrun, (hfb (Or.inl rfl)).1 "https://flow.example" rfl (by decide)⟩

/-- The driver-call trace of `executeStep` is that of its `try` body: the
`catch` only converts the outcome. -/
theorem executeStep_trace_eq (d : Driver) (step : TestStep) (b dir : String) :
    (executeStep d step b dir).1 = (executeStepTry d step b dir).1 := by
  simp only [executeStep]
  cases h : (executeStepTry d step b dir).2 <;> simp [h]

/-- **C2**: `executeStep` always returns a `StepResult` (it is a total
function of its oracle inputs) and never lets an exception escape: whenever
the `try` body ends in a thrown exception `e` (an `Except.error` from a
driver call), the returned outcome is exactly the failed outcome with
`success = false` and `error` the stringified exception. -/
theorem executeStep_catches
    (d : Driver) (step : TestStep) (baseUrl dir : String) (e : String)
    (h : (executeStepTry d step baseUrl dir).2 = Except.error e) :
    (executeStep d step baseUrl dir).2 =
      { step := step, success := false, duration := 0, error := some e,
        screenshotPath := none } := by
  simp [executeStep, h]

/-- Witness for C2: a driver whose calls all throw `"boom"` makes the goto
branch throw, and `executeStep` converts that into a failed outcome carrying
`"boom"`. -/
theorem executeStep_catches_witness :
    (executeStepTry dBoom { goto := some "/x" } "http://b" "scr").2 =
      Except.error "boom" ∧
    (executeStep dBoom { goto := some "/x" } "http://b" "scr").2 =
      { step := { goto := some "/x" }, success := false, duration := 0,
        error := some "boom", screenshotPath := none } :=
  ⟨rfl, executeStep_catches dBoom { goto := some "/x" } "http://b" "scr" "boom" rfl⟩

/-- **C3** (counterexample): the claim says a step whose action tag lacks its
companion field (here `type` without `text`) is immediately failed without
executing any other action.  But the dispatch falls through: on
`{type: "#x", wait: 5}` the later-priority `wait` action runs (the driver
trace is a 5 ms sleep) and the outcome succeeds. -/
theorem executeStep_malformed_fallthrough_counterexample :
    (executeStep dOK { type := some "#x", wait := some 5 } "" "scr").2.success = true ∧
    (executeStep dOK { type := some "#x", wait := some 5 } "" "scr").1 =
      [DriverCall.sleep 5] ∧
    true ≠ false :=
  ⟨rfl, rfl, by decide⟩

/-- **C3** (amended): a step with none of the recognized action tags — where
a `type`, `verify` or `select` tag whose companion (`text`, `contains`,
`value`) is absent does not count as recognized — and with no other action
tag present is classified as immediately failed: no driver call is made, the
outcome has `success = false`, and its error describes the unrecognized
(serialized) step.  When a companion is absent but a later-priority tag is
present, that later action is executed instead (see the counterexample). -/
theorem executeStep_unknown_failed
    (d : Driver) (step : TestStep) (baseUrl dir : String)
    (hgoto : step.goto = none) (hclick : step.click = none)
    (htype : step.type = none ∨ step.text = none)
    (hwaitFor : step.waitFor = none) (hscreenshot : step.screenshot = none)
    (hverify : step.verify = none ∨ step.contains = none)
    (hwait : step.wait = none) (hscroll : step.scroll = none)
    (hhover : step.hover = none)
    (hselect : step.select = none ∨ step.value = none)
    (hpress : step.press = none) (hevaluate : step.evaluate = none) :
    executeStep d step baseUrl dir =
      ([], { step := step, success := false, duration := 0,
             error := some ("Unknown step type: " ++ stringifyStep step) }) := by
  rcases htype with h1 | h1 <;> rcases hverify with h2 | h2 <;>
    rcases hselect with h3 | h3 <;>
    cases hty : step.type <;> cases hvf : step.verify <;> cases hsl : step.select <;>
    simp_all [executeStep, executeStepTry, mkFail]

/-- Witness for the amended C3: a step carrying only a `timeout` matches no
action tag and is failed with a descriptive error, with no driver call. -/
theorem executeStep_unknown_failed_witness :
    executeStep dOK { timeout := some 5 } "" "scr" =
      ([], { step := { timeout := some 5 }, success := false, duration := 0,
             error := some "Unknown step type: timeout:5;" }) := by
  have h := executeStep_unknown_failed dOK { timeout := some 5 } "" "scr"
    rfl rfl (Or.inl rfl) rfl rfl (Or.inl rfl) rfl rfl rfl (Or.inl rfl) rfl rfl
  rw [h]
  rfl

/-- **C4**: for a verify step whose element is found (the existence wait and
the text read both succeed, the latter returning `text`), the outcome
succeeds iff the element text contains the expected substring under
case-insensitive comparison; on mismatch the error message is built from the
expected substring and the actual text truncated to at most 100 characters,
and contains both. -/
theorem executeStep_verify_semantics
    (d : Driver) (step : TestStep) (baseUrl dir : String)
    (sel expected text v1 : String)
    (hgoto : step.goto = none) (hclick : step.click = none)
    (htype : step.type = none ∨ step.text = none)
    (hwaitFor : step.waitFor = none) (hscreenshot : step.screenshot = none)
    (hverify : step.verify = some sel) (hcontains : step.contains = some expected)
    (hfound : d.run (DriverCall.waitForSelector (resolveSelector sel) false
      (jsOrNat step.timeout 10000)) = Except.ok v1)
    (hread : d.run (DriverCall.getText (resolveSelector sel)) = Except.ok text) :
    ((executeStep d step baseUrl dir).2.success = true ↔
      expected.data.map Char.toLower <:+: text.data.map Char.toLower) ∧
    ((executeStep d step baseUrl dir).2.success = false →
      (executeStep d step baseUrl dir).2.error =
        some ("Expected \"" ++ expected ++ "\" but found \"" ++ jsTake text 100 ++ "\"") ∧
      (jsTake text 100).length ≤ 100 ∧
      expected.data <:+:
        ("Expected \"" ++ expected ++ "\" but found \"" ++ jsTake text 100 ++ "\"").data ∧
      (jsTake text 100).data <:+:
        ("Expected \"" ++ expected ++ "\" but found \"" ++ jsTake text 100 ++ "\"").data) := by
  have hbranch : executeStepTry d step baseUrl dir =
      if jsIncludes (jsToLower text) (jsToLower expected) then
        ([DriverCall.waitForSelector (resolveSelector sel) false (jsOrNat step.timeout 10000),
          DriverCall.getText (resolveSelector sel)], Except.ok (mkOk step))
      else
        ([DriverCall.waitForSelector (resolveSelector sel) false (jsOrNat step.timeout 10000),
          DriverCall.getText (resolveSelector sel)],
         Except.ok (mkFail step
           ("Expected \"" ++ expected ++ "\" but found \"" ++ jsTake text 100 ++ "\""))) := by
    rcases htype with h1 | h1
    · simp only [executeStepTry, hgoto, hclick, h1, hwaitFor, hscreenshot, hverify,
        hcontains, hfound, hread]
    · cases hty : step.type <;>
        simp only [executeStepTry, hgoto, hclick, hty, h1, hwaitFor, hscreenshot,
          hverify, hcontains, hfound, hread]
  have hres : (executeStep d step baseUrl dir).2 =
      if jsIncludes (jsToLower text) (jsToLower expected) then mkOk step
      else mkFail step
        ("Expected \"" ++ expected ++ "\" but found \"" ++ jsTake text 100 ++ "\"") := by
    by_cases hinc : jsIncludes (jsToLower text) (jsToLower expected) = true <;>
      simp [executeStep, hbranch, hinc]
  have hiff : jsIncludes (jsToLower text) (jsToLower expected) = true ↔
      expected.data.map Char.toLower <:+: text.data.map Char.toLower := by
    simp [jsIncludes, jsToLower]
  constructor
  · rw [hres]
    by_cases hinc : jsIncludes (jsToLower text) (jsToLower expected) = true
    · simp [hinc, mkOk, hiff.mp hinc]
    · have hP : ¬ (expected.data.map Char.toLower <:+: text.data.map Char.toLower) :=
        fun hp => hinc (hiff.mpr hp)
      simp [hinc, mkFail, hP]
  · intro hsf
    rw [hres] at hsf
    by_cases hinc : jsIncludes (jsToLower text) (jsToLower expected) = true
    · rw [if_pos hinc] at hsf
      simp [mkOk] at hsf
    · rw [if_neg hinc] at hsf
      refine ⟨?_, ?_, ?_, ?_⟩
      · rw [hres, if_neg hinc]
        rfl
      · exact List.length_take_le 100 text.data
      · refine ⟨"Expected \"".data,
          ("\" but found \"" ++ jsTake text 100 ++ "\"").data, ?_⟩
        rw [← String.data_append, ← String.data_append]
        rw [← String.append_assoc, ← String.append_assoc]
      · refine ⟨("Expected \"" ++ expected ++ "\" but found \"").data, "\"".data, ?_⟩
        rw [← String.data_append, ← String.data_append]

/-- Witness for C4: verifying element text `"Welcome, Jane"` against the
expected substring `"welcome"` succeeds. -/
theorem executeStep_verify_semantics_witness :
    (executeStep dText { verify := some "h1", contains := some "welcome" } "" "scr").2.success =
      true := by
  have h := executeStep_verify_semantics dText
    { verify := some "h1", contains := some "welcome" } "" "scr"
    "h1" "welcome" "Welcome, Jane" ""
    rfl rfl (Or.inl rfl) rfl rfl rfl rfl rfl rfl
  exact h.1.mpr (by decide)

/-- **C7** (counterexample): the claim says a step timeout specified as 0 is
used as the effective timeout.  But the source computes `step.timeout ||
30000`, and `0` is falsy in JS: a navigate step with `timeout: 0` passes
30000 to the driver, not 0. -/
theorem executeStep_timeout_zero_counterexample :
    (executeStep dOK { goto := some "http://a", timeout := some 0 } "" "scr").1 =
      [DriverCall.goto "http://a" 30000] ∧
    (30000 : Nat) ≠ 0 :=
  ⟨by decide, by decide⟩

/-- **C7** (amended): for every action that waits on the driver, the first
driver call of the step carries the effective timeout: the step's own
timeout when it is specified and non-zero, and otherwise the default —
30000 ms for navigate (`goto`) and `waitFor`, 10000 ms for `click`, `type`,
`verify`, `hover` and `select` (a zero timeout falls back to the default,
see the counterexample). -/
theorem executeStep_effective_timeouts
    (d : Driver) (step : TestStep) (baseUrl dir : String) :
    (∀ u, step.goto = some u →
      (executeStep d step baseUrl dir).1.head? =
        some (DriverCall.goto (if jsStartsWith u ("http") then u else baseUrl ++ u)
          (match step.timeout with | some n => if n = 0 then 30000 else n | none => 30000))) ∧
    (step.goto = none → ∀ s, step.click = some s →
      (executeStep d step baseUrl dir).1.head? =
        some (DriverCall.waitForSelector (resolveSelector s) true
          (match step.timeout with | some n => if n = 0 then 10000 else n | none => 10000))) ∧
    (step.goto = none → step.click = none →
      ∀ s tx, step.type = some s → step.text = some tx →
      (executeStep d step baseUrl dir).1.head? =
        some (DriverCall.waitForSelector (resolveSelector s) true
          (match step.timeout with | some n => if n = 0 then 10000 else n | none => 10000))) ∧
    (step.goto = none → step.click = none → (step.type = none ∨ step.text = none) →
      ∀ s, step.waitFor = some s →
      (executeStep d step baseUrl dir).1.head? =
        some (DriverCall.waitForSelector (resolveSelector s) true
          (match step.timeout with | some n => if n = 0 then 30000 else n | none => 30000))) ∧
    (step.goto = none → step.click = none → (step.type = none ∨ step.text = none) →
      step.waitFor = none → step.screenshot = none →
      ∀ s c0, step.verify = some s → step.contains = some c0 →
      (executeStep d step baseUrl dir).1.head? =
        some (DriverCall.waitForSelector (resolveSelector s) false
          (match step.timeout with | some n => if n = 0 then 10000 else n | none => 10000))) ∧
    (step.goto = none → step.click = none → (step.type = none ∨ step.text = none) →
      step.waitFor = none → step.screenshot = none →
      (step.verify = none ∨ step.contains = none) →
      step.wait = none → step.scroll = none →
      ∀ s, step.hover = some s →
      (executeStep d step baseUrl dir).1.head? =
        some (DriverCall.waitForSelector (resolveSelector s) true
          (match step.timeout with | some n => if n = 0 then 10000 else n | none => 10000))) ∧
    (step.goto = none → step.click = none → (step.type = none ∨ step.text = none) →
      step.waitFor = none → step.screenshot = none →
      (step.verify = none ∨ step.contains = none) →
      step.wait = none → step.scroll = none → step.hover = none →
      ∀ s v, step.select = some s → step.value = some v →
      (executeStep d step baseUrl dir).1.head? =
        some (DriverCall.waitForSelector (resolveSelector s) false
          (match step.timeout with | some n => if n = 0 then 10000 else n | none => 10000))) := by
  rw [executeStep_trace_eq]
  refine ⟨?_, ?_, ?_, ?_, ?_, ?_, ?_⟩
  · intro u hg
    simp only [executeStepTry, hg]
    repeat' split
    all_goals simp [jsOrNat, *]
  · intro hg s hc
    simp only [executeStepTry, hg, hc]
    repeat' split
    all_goals simp [jsOrNat, *]
  · intro hg hc s tx hty htx
    simp only [executeStepTry, hg, hc, hty, htx]
    repeat' split
    all_goals simp [jsOrNat, *]
  · intro hg hc htt s hw
    rcases htt with h1 | h1
    · simp only [executeStepTry, hg, hc, h1, hw]
      repeat' split
      all_goals simp [jsOrNat, *]
    · cases hty : step.type <;> simp only [executeStepTry, hg, hc, hty, h1, hw] <;>
        (repeat' split) <;> simp [jsOrNat, *]
  · intro hg hc htt hw hs s c0 hv hc0
    rcases htt with h1 | h1
    · simp only [executeStepTry, hg, hc, h1, hw, hs, hv, hc0]
      repeat' split
      all_goals simp [jsOrNat, *]
    · cases hty : step.type <;>
        simp only [executeStepTry, hg, hc, hty, h1, hw, hs, hv, hc0] <;>
        (repeat' split) <;> simp [jsOrNat, *]
  · intro hg hc htt hw hs hvp hwt hsc s hh
    rcases htt with h1 | h1 <;> rcases hvp with h2 | h2
    · simp only [executeStepTry, hg, hc, h1, hw, hs, h2, hwt, hsc, hh]
      repeat' split
      all_goals simp [jsOrNat, *]
    · cases hvf : step.verify <;>
        simp only [executeStepTry, hg, hc, h1, hw, hs, hvf, h2, hwt, hsc, hh] <;>
        (repeat' split) <;> simp [jsOrNat, *]
    · cases hty : step.type <;>
        simp only [executeStepTry, hg, hc, hty, h1, hw, hs, h2, hwt, hsc, hh] <;>
        (repeat' split) <;> simp [jsOrNat, *]
    · cases hty : step.type <;> cases hvf : step.verify <;>
        simp only [executeStepTry, hg, hc, hty, h1, hw, hs, hvf, h2, hwt, hsc, hh] <;>
        (repeat' split) <;> simp [jsOrNat, *]
  · intro hg hc htt hw hs hvp hwt hsc hhv s v hsl hvl
    rcases htt with h1 | h1 <;> rcases hvp with h2 | h2
    · simp only [executeStepTry, hg, hc, h1, hw, hs, h2, hwt, hsc, hhv, hsl, hvl]
      repeat' split
      all_goals simp [jsOrNat, *]
    · cases hvf : step.verify <;>
        simp only [executeStepTry, hg, hc, h1, hw, hs, hvf, h2, hwt, hsc, hhv, hsl, hvl] <;>
        (repeat' split) <;> simp [jsOrNat, *]
    · cases hty : step.type <;>
        simp only [executeStepTry, hg, hc, hty, h1, hw, hs, h2, hwt, hsc, hhv, hsl, hvl] <;>
        (repeat' split) <;> simp [jsOrNat, *]
    · cases hty : step.type <;> cases hvf : step.verify <;>
        simp only [executeStepTry, hg, hc, hty, h1, hw, hs, hvf, h2, hwt, hsc, hhv, hsl, hvl] <;>
        (repeat' split) <;> simp [jsOrNat, *]

/-- Witness for the amended C7: a navigate step with a non-zero timeout of
5 ms uses 5; a click step with no timeout uses the 10000 ms default. -/
theorem executeStep_effective_timeouts_witness :
    (executeStep dOK { goto := some "/p", timeout := some 5 } "http://b" "scr").1.head? =
      some (DriverCall.goto "http://b/p" 5) ∧
    (executeStep dOK { click := some "#b" } "http://b" "scr").1.head? =
      some (DriverCall.waitForSelector "#b" true 10000) := by
  constructor
  · have h := (executeStep_effective_timeouts dOK
      { goto := some "/p", timeout := some 5 } "http://b" "scr").1 "/p" rfl
    rw [h]
    rfl
  · have h := (executeStep_effective_timeouts dOK
      { click := some "#b" } "http://b" "scr").2.1 rfl "#b" rfl
    rw [h]
    rfl

/-- **C10**: after the browser lifecycle performed by `runTestFlow` (launch,
then `browser.close()` directly rather than `closeBrowser()`), the
module-level cache still holds the very handle the run closed, and a second
`launchBrowser` call returns that already-closed browser with the module
state unchanged — no new browser is launched. -/
theorem launchBrowser_returns_closed_browser (st : BrowserModel.BrowserWorld) :
    (BrowserModel.runnerBrowserLifecycle st).1.browserInstance =
      some (BrowserModel.runnerBrowserLifecycle st).2 ∧
    (BrowserModel.runnerBrowserLifecycle st).2 ∈
      (BrowserModel.runnerBrowserLifecycle st).1.closed ∧
    BrowserModel.launchBrowser (BrowserModel.runnerBrowserLifecycle st).1 =
      ((BrowserModel.runnerBrowserLifecycle st).1,
       (BrowserModel.runnerBrowserLifecycle st).2) := by
  cases hc : st.browserInstance <;>
    simp [BrowserModel.runnerBrowserLifecycle, BrowserModel.launchBrowser,
      BrowserModel.browserClose, hc]

/-- Witness for C10: starting from a fresh module state, the run leaves the
cache holding the closed browser and a relaunch returns it unchanged. -/
theorem launchBrowser_returns_closed_browser_witness :
    (BrowserModel.runnerBrowserLifecycle ⟨none, 0, []⟩).1.browserInstance =
      some (BrowserModel.runnerBrowserLifecycle ⟨none, 0, []⟩).2 ∧
    (BrowserModel.runnerBrowserLifecycle ⟨none, 0, []⟩).2 ∈
      (BrowserModel.runnerBrowserLifecycle ⟨none, 0, []⟩).1.closed ∧
    BrowserModel.launchBrowser (BrowserModel.runnerBrowserLifecycle ⟨none, 0, []⟩).1 =
      ((BrowserModel.runnerBrowserLifecycle ⟨none, 0, []⟩).1,
       (BrowserModel.runnerBrowserLifecycle ⟨none, 0, []⟩).2) :=
  launchBrowser_returns_closed_browser ⟨none, 0, []⟩
